import Mathlib

/-!
Verification development for `homework.py`: a single-file polling bot that
fetches homework statuses from an HTTP endpoint, validates the payload,
detects status transitions per homework name, and notifies a Telegram chat.

The embedding models Python values with an inductive `PyVal`, Python
exceptions with `PyErr` (including the implicit-chaining `context` field,
i.e. `__context__`), and each source function as a Lean function over these.
The global dict `homework_statuses` and the local `timestamp` of `main` are
threaded explicitly as a `LoopState`.  External effects (the HTTP endpoint,
the Telegram bot) are an explicit environment `TickEnv`.
-/

set_option maxHeartbeats 1000000

namespace HomeworkBot

/-- A subset of Python runtime values sufficient for the decoded JSON
payloads this program handles: `None`, integers, strings, lists, and
string-keyed mappings (JSON objects always have string keys). -/
inductive PyVal where
  | none
  | int (n : Int)
  | str (s : String)
  | list (xs : List PyVal)
  | dict (kvs : List (String × PyVal))

mutual

/-- Structural (Python `==`) equality test on `PyVal`. -/
def PyVal.beq : PyVal → PyVal → Bool
  | .none, .none => true
  | .int n, .int m => n == m
  | .str s, .str t => s == t
  | .list xs, .list ys => PyVal.beqL xs ys
  | .dict xs, .dict ys => PyVal.beqKV xs ys
  | _, _ => false

/-- Elementwise equality of `PyVal` lists. -/
def PyVal.beqL : List PyVal → List PyVal → Bool
  | [], [] => true
  | x :: xs, y :: ys => PyVal.beq x y && PyVal.beqL xs ys
  | _, _ => false

/-- Entrywise equality of string-keyed `PyVal` mappings. -/
def PyVal.beqKV : List (String × PyVal) → List (String × PyVal) → Bool
  | [], [] => true
  | (k, x) :: xs, (l, y) :: ys => k == l && PyVal.beq x y && PyVal.beqKV xs ys
  | _, _ => false

end

mutual

/-- Soundness of `PyVal.beq`. -/
def PyVal.eq_of_pbeq : ∀ a b : PyVal, PyVal.beq a b = true → a = b
  | .none, .none, _ => rfl
  | .int n, .int m, h => by
      simp only [PyVal.beq] at h
      exact congrArg PyVal.int (beq_iff_eq.mp h)
  | .str s, .str t, h => by
      simp only [PyVal.beq] at h
      exact congrArg PyVal.str (beq_iff_eq.mp h)
  | .list xs, .list ys, h => by
      simp only [PyVal.beq] at h
      exact congrArg PyVal.list (PyVal.eqL_of_pbeqL xs ys h)
  | .dict xs, .dict ys, h => by
      simp only [PyVal.beq] at h
      exact congrArg PyVal.dict (PyVal.eqKV_of_pbeqKV xs ys h)

/-- Soundness of `PyVal.beqL`. -/
def PyVal.eqL_of_pbeqL : ∀ xs ys : List PyVal, PyVal.beqL xs ys = true → xs = ys
  | [], [], _ => rfl
  | x :: xs, y :: ys, h => by
      simp only [PyVal.beqL, Bool.and_eq_true] at h
      have h1 := PyVal.eq_of_pbeq x y h.1
      have h2 := PyVal.eqL_of_pbeqL xs ys h.2
      rw [h1, h2]

/-- Soundness of `PyVal.beqKV`. -/
def PyVal.eqKV_of_pbeqKV :
    ∀ xs ys : List (String × PyVal), PyVal.beqKV xs ys = true → xs = ys
  | [], [], _ => rfl
  | (k, x) :: xs, (l, y) :: ys, h => by
      simp only [PyVal.beqKV, Bool.and_eq_true] at h
      have h1 := PyVal.eq_of_pbeq x y h.1.2
      have h2 := PyVal.eqKV_of_pbeqKV xs ys h.2
      have h3 : k = l := beq_iff_eq.mp h.1.1
      rw [h1, h2, h3]

end

mutual

/-- Reflexivity of `PyVal.beq`. -/
def PyVal.pbeq_refl : ∀ a : PyVal, PyVal.beq a a = true
  | .none => rfl
  | .int n => by simp [PyVal.beq]
  | .str s => by simp [PyVal.beq]
  | .list xs => by simp only [PyVal.beq]; exact PyVal.pbeqL_refl xs
  | .dict xs => by simp only [PyVal.beq]; exact PyVal.pbeqKV_refl xs

/-- Reflexivity of `PyVal.beqL`. -/
def PyVal.pbeqL_refl : ∀ xs : List PyVal, PyVal.beqL xs xs = true
  | [] => rfl
  | x :: xs => by
      simp only [PyVal.beqL, Bool.and_eq_true]
      exact ⟨PyVal.pbeq_refl x, PyVal.pbeqL_refl xs⟩

/-- Reflexivity of `PyVal.beqKV`. -/
def PyVal.pbeqKV_refl : ∀ xs : List (String × PyVal), PyVal.beqKV xs xs = true
  | [] => rfl
  | (k, x) :: xs => by
      simp only [PyVal.beqKV, Bool.and_eq_true]
      exact ⟨⟨by simp, PyVal.pbeq_refl x⟩, PyVal.pbeqKV_refl xs⟩

end

instance : DecidableEq PyVal := fun a b =>
  decidable_of_iff (PyVal.beq a b = true)
    ⟨PyVal.eq_of_pbeq a b, fun h => h ▸ PyVal.pbeq_refl a⟩

/-- Kinds of Python exceptions this program can raise or meet.
`statusCodeError` models the `StatusCodeError` class imported from the
repository's `exceptions` module (not under `src/`); per the spec it is an
error "carrying the observed code", raised on a non-200 response. -/
inductive PyErrKind where
  | typeError
  | keyError
  | valueError
  | statusCodeError
  | requestException
  | telegramError
  | indexError
deriving DecidableEq

/-- A Python exception: a kind, a message (`str(e)` up to `KeyError`'s
extra quoting, which nothing here depends on), and the implicitly chained
`__context__` exception, if any. -/
inductive PyErr where
  | mk (kind : PyErrKind) (msg : String) (context : Option PyErr)

def PyErr.kind : PyErr → PyErrKind
  | .mk k _ _ => k

def PyErr.msg : PyErr → String
  | .mk _ m _ => m

def PyErr.context : PyErr → Option PyErr
  | .mk _ _ c => c

/-- Approximation of Python `str(v)` as used by the f-strings of the source.
The claims only format string-valued fields. -/
def pyStr : PyVal → String
  | .none => "None"
  | .int n => toString n
  | .str s => s
  | .list _ => "<list>"
  | .dict _ => "<dict>"

/-- Python's first-match lookup in a string-keyed mapping
(`d[k]` / `k in d`). -/
def dictGet (k : String) : List (String × PyVal) → Option PyVal
  | [] => Option.none
  | (k', v) :: rest => if k = k' then some v else dictGet k rest

/-- `HOMEWORK_VERDICTS`: the static verdict catalog (line 39 of the source). -/
def HOMEWORK_VERDICTS : List (String × String) :=
  [("approved", "Работа проверена: ревьюеру всё понравилось. Ура!"),
   ("reviewing", "Работа взята на проверку ревьюером."),
   ("rejected", "Работа проверена: у ревьюера есть замечания.")]

/-- Lookup in the verdict catalog. -/
def verdictGet (k : String) : List (String × String) → Option String
  | [] => Option.none
  | (k', v) :: rest => if k = k' then some v else verdictGet k rest

/-- The global dict `homework_statuses` (line 45): maps a homework name
(any Python value in principle — it is used directly as a dict key) to the
last stored status string. -/
def StatusTable := List (PyVal × String)

/-- Lookup of a name in `homework_statuses`
(`homework_name in homework_statuses`, `homework_statuses[homework_name]`). -/
def tableGet (k : PyVal) : StatusTable → Option String
  | [] => Option.none
  | (k', v) :: rest => if k = k' then some v else tableGet k rest

/-- Python dict assignment `homework_statuses[homework_name] = hw_status`:
replaces an existing binding in place, otherwise appends. -/
def tableSet (k : PyVal) (v : String) : StatusTable → StatusTable
  | [] => [(k, v)]
  | (k', v') :: rest =>
      if k = k' then (k, v) :: rest else (k', v') :: tableSet k v rest

/-- The three environment variables read at module import
(lines 30-32): `None` when unset, possibly the empty string. -/
structure Config where
  PRACTICUM_TOKEN : Option String
  TELEGRAM_TOKEN : Option String
  TELEGRAM_CHAT_ID : Option String

/-- Python truthiness of an optional string: `not var` holds exactly for
`None` and `''`. -/
def truthy : Option String → Bool
  | Option.none => false
  | some s => s ≠ ""

/-- `check_tokens` (lines 48-54): walks
`[TELEGRAM_CHAT_ID, TELEGRAM_TOKEN, PRACTICUM_TOKEN]` and returns `False`
at the first falsy variable, else `True`. -/
def check_tokens (cfg : Config) : Bool :=
  [cfg.TELEGRAM_CHAT_ID, cfg.TELEGRAM_TOKEN, cfg.PRACTICUM_TOKEN].all truthy

/-- Outcome of the `requests.get` call inside `get_api_answer`:
either a completed HTTP exchange (status code plus a body whose JSON
decoding may fail with a `ValueError`) or a raised
`requests.RequestException`. -/
inductive HttpOutcome where
  | ok (code : Nat) (body : Except String PyVal)
  | requestException (msg : String)

/-- The external world of one loop iteration: the endpoint's reply as a
function of the `from_date` parameter, and whether
`bot.send_message` raises for a given message text. -/
structure TickEnv where
  http : PyVal → HttpOutcome
  telegram : String → Option String

/-- The `TypeError` CPython raises when an `except` clause names something
that is not an exception class.  Line 81 of the source reads
`except requests.RequestException():` — an exception *instance* — so
whenever the `try` body raises, matching this clause raises this
`TypeError` with the original exception as `__context__`, and the later
`except Exception` clause is never consulted. -/
def exceptEvalError (orig : PyErr) : PyErr :=
  .mk .typeError
    "catching classes that do not inherit from BaseException is not allowed"
    (some orig)

/-- `get_api_answer` (lines 67-85).  On a 200 response with a decodable
body it returns the decoded payload.  On every failure path (transport
error, non-200 status, body-decoding failure) the raised exception hits
the malformed first `except` clause and a `TypeError` propagates to the
caller (see `exceptEvalError`); the `return None` and the bare-fallthrough
`except Exception` branch are unreachable. -/
def get_api_answer (env : TickEnv) (timestamp : PyVal) : Except PyErr PyVal :=
  match env.http timestamp with
  | .requestException m =>
      .error (exceptEvalError (.mk .requestException m Option.none))
  | .ok code body =>
      if code ≠ 200 then
        .error (exceptEvalError
          (.mk .statusCodeError
            ("Status code is different from 200 : " ++ toString code)
            Option.none))
      else
        match body with
        | .error m =>
            .error (exceptEvalError (.mk .valueError m Option.none))
        | .ok v => .ok v

/-- `check_response` (lines 88-104): top-level value must be a `dict`;
both keys `homeworks` and `current_date` must be present (all missing
keys are reported together in one `KeyError`); `homeworks` must be a
`list`. -/
def check_response (response : PyVal) : Except PyErr Bool :=
  match response with
  | .dict kvs =>
      let keys := ["homeworks", "current_date"]
      let missing_keys := keys.filter (fun k => (dictGet k kvs).isNone)
      if missing_keys ≠ [] then
        .error (.mk .keyError
          ("Keys are missing: " ++ String.intercalate ", " missing_keys)
          Option.none)
      else
        match dictGet "homeworks" kvs with
        | some (.list _) => .ok true
        | some hw =>
            .error (.mk .typeError
              ("Incorrect type of homework: " ++ pyStr hw) Option.none)
        | Option.none => .ok true
  | _ =>
      .error (.mk .typeError
        ("Incorrect type of API response: " ++ pyStr response) Option.none)

/-- `parse_status` (lines 107-135), with the global `homework_statuses`
threaded explicitly.  Returns the notification message (the empty string
when no transition is detected) together with the table after the call.
Both `KeyError` paths occur before the table write, so on an error the
table is unchanged.  A non-`dict` argument fails Python's `in` test with a
`TypeError` for non-iterable values; no well-formed run reaches that case. -/
def parse_status (homework : PyVal) (table : StatusTable) :
    Except PyErr (String × StatusTable) :=
  match homework with
  | .dict kvs =>
      let subkeys := ["status", "homework_name"]
      let missing_subkeys := subkeys.filter (fun k => (dictGet k kvs).isNone)
      if missing_subkeys ≠ [] then
        .error (.mk .keyError
          ("Subkeys are missing: " ++ String.intercalate ", " missing_subkeys)
          Option.none)
      else
        match dictGet "homework_name" kvs, dictGet "status" kvs with
        | some homework_name, some hw_status =>
            -- `hw_status not in HOMEWORK_VERDICTS`: only a string can be a
            -- key of the catalog, any other value is simply "not in".
            let verdict? := match hw_status with
              | .str s => verdictGet s HOMEWORK_VERDICTS
              | _ => Option.none
            match verdict? with
            | Option.none =>
                .error (.mk .keyError
                  ("Incorrect status of homework: " ++ pyStr hw_status)
                  Option.none)
            | some verdict =>
                let statusStr := pyStr hw_status
                if tableGet homework_name table ≠ some statusStr then
                  let table' := tableSet homework_name statusStr table
                  let message :=
                    "Изменился статус проверки работы \"" ++
                      pyStr homework_name ++ "\". " ++ verdict
                  .ok (message, table')
                else
                  .ok ("", table)
        | _, _ =>
            .error (.mk .typeError "unreachable: keys checked present"
              Option.none)
  | _ =>
      .error (.mk .typeError
        ("argument of type " ++ pyStr homework ++ " is not iterable")
        Option.none)

/-- `bot.send_message(TELEGRAM_CHAT_ID, message)` as seen through the
environment: the Telegram client may raise. -/
def bot_send_message (env : TickEnv) (message : String) : Except PyErr Unit :=
  match env.telegram message with
  | some err => .error (.mk .telegramError err Option.none)
  | Option.none => .ok ()

/-- `send_message` (lines 57-64): wraps the bot call in
`try/except Exception`; a delivery failure is logged and swallowed, so the
function itself never raises. -/
def send_message (env : TickEnv) (message : String) : Except PyErr Unit :=
  match bot_send_message env message with
  | .error _ => .ok ()   -- logging.error(...): failure swallowed
  | .ok () => .ok ()     -- logging.debug('Message sent')

/-- Python subscription `v[k]` with a string key: key lookup on a dict
(`KeyError` when absent), `TypeError` otherwise. -/
def pySubscript (v : PyVal) (k : String) : Except PyErr PyVal :=
  match v with
  | .dict kvs =>
      match dictGet k kvs with
      | some x => .ok x
      | Option.none =>
          .error (.mk .keyError ("'" ++ k ++ "'") Option.none)
  | .list _ =>
      .error (.mk .typeError
        "list indices must be integers or slices, not str" Option.none)
  | _ =>
      .error (.mk .typeError
        ("'" ++ pyStr v ++ "' object is not subscriptable") Option.none)

/-- Python `len(v)`. -/
def pyLen (v : PyVal) : Except PyErr Nat :=
  match v with
  | .list xs => .ok xs.length
  | .dict kvs => .ok kvs.length
  | .str s => .ok s.length
  | _ =>
      .error (.mk .typeError
        ("object of type '" ++ pyStr v ++ "' has no len()") Option.none)

/-- Python indexing `v[i]` with a non-negative integer index. -/
def pyIndex (v : PyVal) (i : Nat) : Except PyErr PyVal :=
  match v with
  | .list xs =>
      match xs.get? i with
      | some x => .ok x
      | Option.none =>
          .error (.mk .indexError "list index out of range" Option.none)
  | _ =>
      .error (.mk .typeError
        ("'" ++ pyStr v ++ "' object is not indexable") Option.none)

/-- The mutable state of `main`'s loop: the local `timestamp` (set to
`int(time.time())` at start, reassigned from `response['current_date']` —
so in general a `PyVal`) and the global `homework_statuses` dict. -/
structure LoopState where
  timestamp : PyVal
  table : StatusTable

/-- `f'Сбой в работе программы: {error}'` (line 157). -/
def failureText (e : PyErr) : String :=
  "Сбой в работе программы: " ++ e.msg

/-- The `try` block of one loop iteration (lines 149-155): fetch,
validate, possibly observe-and-notify the first item, then advance the
timestamp from `response['current_date']`.  Returns the state after the
block together with the list of messages handed to `send_message`.  The
resulting table equals the source's global at every exit: both `KeyError`
paths of `parse_status` occur before its table write, and no step after
that write can raise. -/
def tickBody (env : TickEnv) (st : LoopState) :
    Except PyErr (LoopState × List String) := do
  let response ← get_api_answer env st.timestamp
  let _ ← check_response response
  let hws ← pySubscript response "homeworks"
  let n ← pyLen hws
  if n > 0 then
    let hw ← pyIndex hws 0
    let (status, table') ← parse_status hw st.table
    -- send_message(bot, status): never raises, see send_message
    let cd ← pySubscript response "current_date"
    return ({ timestamp := cd, table := table' }, [status])
  else
    let cd ← pySubscript response "current_date"
    return ({ timestamp := cd, table := st.table }, [])

/-- One full iteration of `while True` (lines 148-161): the `try` block,
and on any exception the `except Exception` handler, which logs and makes
a best-effort `send_message` with the failure text, leaving the state
untouched.  An exception escaping the handler itself would crash the
process; it is propagated as `.error` (and proved unreachable). -/
def tick (env : TickEnv) (st : LoopState) :
    Except PyErr (LoopState × List String) :=
  match tickBody env st with
  | .ok r => .ok r
  | .error e =>
      let message := failureText e
      match send_message env message with
      | .ok _ => .ok (st, [message])
      | .error e' => .error e'

/-- A finite prefix of the infinite loop: one `TickEnv` per iteration.
Returns the final state and the concatenated notifier invocations, or the
exception that crashed the process. -/
def runTicks (envs : List TickEnv) (st : LoopState) :
    Except PyErr (LoopState × List String) :=
  match envs with
  | [] => .ok (st, [])
  | e :: rest => do
      let (st', sends) ← tick e st
      let (stf, sends') ← runTicks rest st'
      return (stf, sends ++ sends')

/-- `main` (lines 138-161) observed for the first `envs.length`
iterations: the token check guards everything; on failure a `ValueError`
is raised before the loop, on success the loop starts from timestamp `t0`
(`int(time.time())`) and the module-level empty `homework_statuses`. -/
def main_run (cfg : Config) (t0 : Int) (envs : List TickEnv) :
    Except PyErr (LoopState × List String) :=
  if check_tokens cfg then
    runTicks envs { timestamp := .int t0, table := [] }
  else
    .error (.mk .valueError "Missing environment variables" Option.none)

/-! ## Concrete fixtures used by witnesses and counterexamples -/

/-- A well-formed homework item, as decoded from JSON. -/
def hwItem (name status : String) : PyVal :=
  .dict [("homework_name", .str name), ("status", .str status)]

/-- A well-formed response payload. -/
def respWith (hws : List PyVal) (cd : PyVal) : PyVal :=
  .dict [("homeworks", .list hws), ("current_date", cd)]

/-- An endpoint that always answers 200 with payload `resp`; Telegram up. -/
def envReturning (resp : PyVal) : TickEnv :=
  { http := fun _ => .ok 200 (.ok resp), telegram := fun _ => Option.none }

/-- An endpoint that always answers HTTP 500; Telegram up. -/
def envHttp500 : TickEnv :=
  { http := fun _ => .ok 500 (.error "500 body"), telegram := fun _ => Option.none }

/-- An endpoint whose request raises `requests.RequestException`. -/
def envTransportDown : TickEnv :=
  { http := fun _ => .requestException "Endpoint not available",
    telegram := fun _ => Option.none }

/-- An endpoint answering 200 with a body that JSON decoding rejects. -/
def envDecodeFail : TickEnv :=
  { http := fun _ => .ok 200 (.error "Expecting value: line 1 column 1 (char 0)"),
    telegram := fun _ => Option.none }

/-- Endpoint up, Telegram client raising on every send. -/
def envTelegramDown (resp : PyVal) : TickEnv :=
  { http := fun _ => .ok 200 (.ok resp),
    telegram := fun _ => some "telegram unavailable" }

/-- The notification text for `hw1` entering `reviewing`. -/
def msgHw1Reviewing : String :=
  "Изменился статус проверки работы \"hw1\". Работа взята на проверку ревьюером."

/-! ## Helper lemmas -/

/-- `send_message` swallows every failure of the underlying bot call. -/
theorem send_message_ok (env : TickEnv) (m : String) :
    send_message env m = .ok () := by
  unfold send_message bot_send_message
  cases env.telegram m <;> rfl

/-- Looking up the key just written into `homework_statuses`. -/
theorem tableGet_tableSet_self (k : PyVal) (v : String) (t : StatusTable) :
    tableGet k (tableSet k v t) = some v := by
  induction t with
  | nil => simp [tableSet, tableGet]
  | cons p rest ih =>
      obtain ⟨k', v'⟩ := p
      by_cases h : k = k'
      · simp [tableSet, h, tableGet]
      · simp [tableSet, h, tableGet, ih]

/-- Writing one key of `homework_statuses` leaves every other key's
binding unchanged. -/
theorem tableGet_tableSet_other (k k' : PyVal) (v : String) (t : StatusTable)
    (h : k ≠ k') : tableGet k (tableSet k' v t) = tableGet k t := by
  induction t with
  | nil => simp [tableSet, tableGet, h]
  | cons p rest ih =>
      obtain ⟨k'', v''⟩ := p
      by_cases h2 : k' = k''
      · subst h2
        simp [tableSet, tableGet, h]
      · simp [tableSet, h2, tableGet, ih]

/-- Unfolding of `parse_status` on a well-formed item with a recognized
status: the transition test against the stored status decides everything. -/
theorem parse_status_wellformed (name status verdict : String)
    (t : StatusTable) (hv : verdictGet status HOMEWORK_VERDICTS = some verdict) :
    parse_status (hwItem name status) t =
      (if tableGet (.str name) t ≠ some status then
        .ok ("Изменился статус проверки работы \"" ++ name ++ "\". " ++ verdict,
             tableSet (.str name) status t)
      else
        .ok ("", t)) := by
  simp only [parse_status, hwItem, dictGet, pyStr]
  simp +decide only [List.filter, decide_eq_true_eq]
  simp [hv]

/-! ## Claim theorems -/

/-- C5: for every name and recognized status (with the pair not already
recorded, so that the first call is a transition), `parse_status` returns
the formatted message on the first call, stores exactly that status for
that name, and returns nothing (the empty string) on the second call with
the unchanged table. -/
theorem C5_theorem (name status verdict : String) (t : StatusTable)
    (hv : verdictGet status HOMEWORK_VERDICTS = some verdict)
    (ht : tableGet (.str name) t ≠ some status) :
    parse_status (hwItem name status) t =
      .ok ("Изменился статус проверки работы \"" ++ name ++ "\". " ++ verdict,
           tableSet (.str name) status t) ∧
    tableGet (.str name) (tableSet (.str name) status t) = some status ∧
    parse_status (hwItem name status) (tableSet (.str name) status t) =
      .ok ("", tableSet (.str name) status t) := by
  refine ⟨?_, tableGet_tableSet_self _ _ _, ?_⟩
  · rw [parse_status_wellformed name status verdict t hv, if_pos ht]
  · rw [parse_status_wellformed name status verdict _ hv, if_neg]
    simp [tableGet_tableSet_self]

/-- C5 witness: the `hw1`/`reviewing` pair against the fresh table. -/
theorem C5_witness :
    parse_status (hwItem "hw1" "reviewing") ([] : StatusTable) =
      .ok ("Изменился статус проверки работы \"" ++ "hw1" ++ "\". " ++
             "Работа взята на проверку ревьюером.",
           tableSet (.str "hw1") "reviewing" ([] : StatusTable)) ∧
    tableGet (.str "hw1")
        (tableSet (.str "hw1") "reviewing" ([] : StatusTable)) =
      some "reviewing" ∧
    parse_status (hwItem "hw1" "reviewing")
        (tableSet (.str "hw1") "reviewing" ([] : StatusTable)) =
      .ok ("", tableSet (.str "hw1") "reviewing" ([] : StatusTable)) :=
  C5_theorem "hw1" "reviewing" "Работа взята на проверку ревьюером."
    ([] : StatusTable) rfl (by simp [tableGet])

/-- C9: frame property of `parse_status` on a well-formed item with a
recognized status.  On a detected transition the table changes in exactly
the item's entry: the name now maps to the incoming status and every
other key's binding is untouched.  When no transition is detected the
table is returned entirely unchanged. -/
theorem C9_theorem (name status verdict : String) (t : StatusTable)
    (hv : verdictGet status HOMEWORK_VERDICTS = some verdict) :
    (tableGet (.str name) t ≠ some status →
      parse_status (hwItem name status) t =
        .ok ("Изменился статус проверки работы \"" ++ name ++ "\". " ++
               verdict,
             tableSet (.str name) status t) ∧
      tableGet (.str name) (tableSet (.str name) status t) = some status ∧
      ∀ k, k ≠ PyVal.str name →
        tableGet k (tableSet (.str name) status t) = tableGet k t) ∧
    (tableGet (.str name) t = some status →
      parse_status (hwItem name status) t = .ok ("", t)) := by
  constructor
  · intro ht
    refine ⟨?_, tableGet_tableSet_self _ _ _, ?_⟩
    · rw [parse_status_wellformed name status verdict t hv, if_pos ht]
    · intro k hk
      exact tableGet_tableSet_other k (.str name) status t hk
  · intro ht
    rw [parse_status_wellformed name status verdict t hv, if_neg]
    simp [ht]

/-- C9 witness: a transition call against a table holding another name
(`other` keeps its binding, `hw1` is written), then the no-transition
call leaving the table unchanged. -/
theorem C9_witness :
    parse_status (hwItem "hw1" "reviewing")
        [(PyVal.str "other", "approved")] =
      .ok ("Изменился статус проверки работы \"" ++ "hw1" ++ "\". " ++
             "Работа взята на проверку ревьюером.",
           tableSet (.str "hw1") "reviewing"
             [(PyVal.str "other", "approved")]) ∧
    tableGet (.str "hw1")
        (tableSet (.str "hw1") "reviewing"
          [(PyVal.str "other", "approved")]) = some "reviewing" ∧
    tableGet (.str "other")
        (tableSet (.str "hw1") "reviewing"
          [(PyVal.str "other", "approved")]) =
      tableGet (.str "other") [(PyVal.str "other", "approved")] ∧
    parse_status (hwItem "hw1" "reviewing")
        [(PyVal.str "hw1", "reviewing")] =
      .ok ("", [(PyVal.str "hw1", "reviewing")]) := by
  have ha := C9_theorem "hw1" "reviewing"
    "Работа взята на проверку ревьюером."
    [(PyVal.str "other", "approved")] rfl
  have hb := C9_theorem "hw1" "reviewing"
    "Работа взята на проверку ревьюером."
    [(PyVal.str "hw1", "reviewing")] rfl
  have h1 := ha.1 (by simp [tableGet])
  have h2 := hb.2 (by simp [tableGet])
  exact ⟨h1.1, h1.2.1, h1.2.2 (.str "other") (by simp), h2⟩

/-- C6: for every mapping payload from which `homeworks` and/or
`current_date` is absent, `check_response` fails with one `KeyError`
whose message names exactly the missing required keys, joined together. -/
theorem C6_theorem (kvs : List (String × PyVal)) (missing : List String)
    (hm : missing = ["homeworks", "current_date"].filter
        (fun k => (dictGet k kvs).isNone))
    (hne : missing ≠ []) :
    check_response (.dict kvs) =
      .error (.mk .keyError
        ("Keys are missing: " ++ String.intercalate ", " missing)
        Option.none) ∧
    ∀ k, k ∈ (["homeworks", "current_date"] : List String) →
      (dictGet k kvs = Option.none ↔ k ∈ missing) := by
  subst hm
  constructor
  · simp only [check_response]
    rw [if_pos hne]
  · intro k hk
    simp [List.mem_filter, hk, Option.isNone_iff_eq_none]

/-- C6 witness: the empty payload is missing both keys and both are named
together in the single error. -/
theorem C6_witness :
    check_response (.dict []) =
      .error (.mk .keyError
        ("Keys are missing: " ++
           String.intercalate ", " ["homeworks", "current_date"])
        Option.none) ∧
    ∀ k, k ∈ (["homeworks", "current_date"] : List String) →
      (dictGet k ([] : List (String × PyVal)) = Option.none ↔
        k ∈ (["homeworks", "current_date"] : List String)) :=
  C6_theorem [] ["homeworks", "current_date"] rfl (by simp)

/-- C2 counterexample: on an HTTP 500, the exception reaching
`get_api_answer`'s caller is the `TypeError` produced by the malformed
first `except` clause (kind `typeError`), not a `StatusCodeError` — the
claim that the call fails with a `StatusCodeError` is false as stated. -/
theorem C2_counterexample :
    get_api_answer envHttp500 (.int 1000) =
      .error (exceptEvalError (.mk .statusCodeError
        "Status code is different from 200 : 500" Option.none)) ∧
    (exceptEvalError (.mk .statusCodeError
        "Status code is different from 200 : 500" Option.none)).kind =
      PyErrKind.typeError ∧
    PyErrKind.typeError ≠ PyErrKind.statusCodeError :=
  ⟨rfl, rfl, by decide⟩

/-- C2 (amended): on every non-200 response, `get_api_answer` raises a
`StatusCodeError` carrying the observed code inside its `try` block, and
the error does propagate to the caller — but wrapped as the `__context__`
of the `TypeError` raised while evaluating the malformed first `except`
clause; nothing is swallowed inside the function. -/
theorem C2_theorem (env : TickEnv) (ts : PyVal) (code : Nat)
    (body : Except String PyVal) (hh : env.http ts = .ok code body)
    (hc : code ≠ 200) :
    get_api_answer env ts =
      .error (exceptEvalError (.mk .statusCodeError
        ("Status code is different from 200 : " ++ toString code)
        Option.none)) := by
  simp [get_api_answer, hh, hc]

/-- C2 witness: the amended statement at the concrete 500 endpoint. -/
theorem C2_witness :
    envHttp500.http (.int 1000) = .ok 500 (.error "500 body") ∧
    (500 : Nat) ≠ 200 ∧
    get_api_answer envHttp500 (.int 1000) =
      .error (exceptEvalError (.mk .statusCodeError
        ("Status code is different from 200 : " ++ toString (500 : Nat))
        Option.none)) :=
  ⟨rfl, by decide,
   C2_theorem envHttp500 (.int 1000) 500 (.error "500 body") rfl (by decide)⟩

/-- C10 counterexample: on a transport failure `get_api_answer` does not
catch the exception and return `None` — it raises (the `TypeError` from
the malformed `except` clause, chaining the original
`requests.RequestException`), so the claim's caught-inside/return-`None`
behavior is false as stated. -/
theorem C10_counterexample :
    get_api_answer envTransportDown (.int 1000) =
      .error (exceptEvalError
        (.mk .requestException "Endpoint not available" Option.none)) ∧
    get_api_answer envTransportDown (.int 1000) ≠ .ok PyVal.none := by
  refine ⟨rfl, ?_⟩
  intro h
  have h2 : (Except.error (exceptEvalError
      (.mk .requestException "Endpoint not available" Option.none)) :
        Except PyErr PyVal) = Except.ok PyVal.none := h
  exact Except.noConfusion h2

/-- C10 (amended): `get_api_answer` raises to its caller on every failure
path — transport error, non-200 status code, body-decoding failure — as
the `TypeError` produced by the malformed first `except` clause with the
original exception as `__context__`; it never returns `None` on a
failure, and it returns a value only when the exchange was a decodable
200 response. -/
theorem C10_theorem (env : TickEnv) (ts : PyVal) :
    (∀ m, env.http ts = .requestException m →
      get_api_answer env ts =
        .error (exceptEvalError (.mk .requestException m Option.none))) ∧
    (∀ code body, env.http ts = .ok code body → code ≠ 200 →
      get_api_answer env ts =
        .error (exceptEvalError (.mk .statusCodeError
          ("Status code is different from 200 : " ++ toString code)
          Option.none))) ∧
    (∀ m, env.http ts = .ok 200 (.error m) →
      get_api_answer env ts =
        .error (exceptEvalError (.mk .valueError m Option.none))) ∧
    (∀ v, get_api_answer env ts = .ok v →
      env.http ts = .ok 200 (.ok v)) := by
  refine ⟨?_, ?_, ?_, ?_⟩
  · intro m hm
    simp [get_api_answer, hm]
  · intro code body hh hc
    simp [get_api_answer, hh, hc]
  · intro m hh
    simp [get_api_answer, hh]
  · intro v hv
    unfold get_api_answer at hv
    cases hh : env.http ts with
    | requestException m =>
        rw [hh] at hv
        simp at hv
    | ok code body =>
        rw [hh] at hv
        by_cases hc : code = 200
        · subst hc
          cases body with
          | error m => simp at hv
          | ok w =>
              simp at hv
              subst hv
              rfl
        · simp [hc] at hv

/-- C10 witness: the amended statement exercised on a body that fails to
decode: the `ValueError` is chained under the propagated `TypeError`. -/
theorem C10_witness :
    get_api_answer envDecodeFail (.int 0) =
      .error (exceptEvalError (.mk .valueError
        "Expecting value: line 1 column 1 (char 0)" Option.none)) :=
  (C10_theorem envDecodeFail (.int 0)).2.2.1
    "Expecting value: line 1 column 1 (char 0)" rfl

/-- C3: when any step of the `try` block raises, the iteration lands in
the `except` handler, which leaves the whole state — in particular the
watermark `timestamp` — untouched and performs only the best-effort
failure notification; the next poll re-requests from the same point. -/
theorem C3_theorem (env : TickEnv) (st : LoopState) (e : PyErr)
    (hf : tickBody env st = .error e) :
    tick env st = .ok (st, [failureText e]) := by
  simp [tick, hf, send_message_ok]

/-- C3 witness: the HTTP 500 tick from the spec's end-to-end property.
The `try` block raises, and the state (watermark 1000, empty table) is
returned unchanged alongside the single failure notification. -/
theorem C3_witness :
    tickBody envHttp500 { timestamp := .int 1000, table := [] } =
      .error (exceptEvalError (.mk .statusCodeError
        ("Status code is different from 200 : " ++ toString (500 : Nat))
        Option.none)) ∧
    tick envHttp500 { timestamp := .int 1000, table := [] } =
      .ok ({ timestamp := .int 1000, table := [] },
        [failureText (exceptEvalError (.mk .statusCodeError
          ("Status code is different from 200 : " ++ toString (500 : Nat))
          Option.none))]) :=
  ⟨rfl, C3_theorem envHttp500 { timestamp := .int 1000, table := [] } _ rfl⟩

/-- Every iteration completes: either the `try` block succeeds or the
handler runs, and the handler's own `send_message` never raises. -/
theorem tick_ok (env : TickEnv) (st : LoopState) :
    ∃ r, tick env st = .ok r := by
  cases h : tickBody env st with
  | ok r => exact ⟨r, by simp [tick, h]⟩
  | error e =>
      exact ⟨(st, [failureText e]), by simp [tick, h, send_message_ok]⟩

/-- Any finite prefix of the loop completes all its iterations. -/
theorem runTicks_ok (envs : List TickEnv) (st : LoopState) :
    ∃ r, runTicks envs st = .ok r := by
  induction envs generalizing st with
  | nil => exact ⟨(st, []), rfl⟩
  | cons e rest ih =>
      obtain ⟨⟨st', sends⟩, h⟩ := tick_ok e st
      obtain ⟨⟨stf, sends'⟩, h2⟩ := ih st'
      refine ⟨(stf, sends ++ sends'), ?_⟩
      simp [runTicks, h, h2, bind, Except.bind, Functor.map, Except.map,
        pure, Except.pure]

/-- C7: in every environment — endpoint down, malformed payloads,
Telegram down — `send_message` returns normally (a delivery failure never
propagates out of the notification attempt), every single iteration
completes, and every finite prefix of the loop completes all its
iterations: no single failure terminates the loop. -/
theorem C7_theorem (env : TickEnv) (st : LoopState) (m : String)
    (envs : List TickEnv) :
    send_message env m = .ok () ∧
    (∃ r, tick env st = .ok r) ∧
    (∃ r, runTicks envs st = .ok r) :=
  ⟨send_message_ok env m, tick_ok env st, runTicks_ok envs st⟩

/-- The response and first-tick state of the spec's end-to-end example:
`hw1`/`reviewing`, `current_date` 2000. -/
def respHw1 : PyVal := respWith [hwItem "hw1" "reviewing"] (.int 2000)

/-- An endpoint that always returns the `hw1`/`reviewing` payload. -/
def envC1 : TickEnv := envReturning respHw1

/-- C1 counterexample: on the second tick with the same `hw1`/`reviewing`
pair, `parse_status` detects no transition and returns the empty string —
yet `send_message` is still invoked, with that empty string: the claim
that the Notifier is not invoked at all is false.  The two-tick run shows
the full trace: one real notification, then one empty invocation. -/
theorem C1_counterexample :
    parse_status (hwItem "hw1" "reviewing") [(PyVal.str "hw1", "reviewing")] =
      .ok ("", [(PyVal.str "hw1", "reviewing")]) ∧
    tick envC1 { timestamp := .int 2000,
                 table := [(PyVal.str "hw1", "reviewing")] } =
      .ok ({ timestamp := .int 2000,
             table := [(PyVal.str "hw1", "reviewing")] }, [""]) ∧
    runTicks [envC1, envC1] { timestamp := .int 1000, table := [] } =
      .ok ({ timestamp := .int 2000,
             table := [(PyVal.str "hw1", "reviewing")] },
        [msgHw1Reviewing, ""]) :=
  ⟨rfl, rfl, rfl⟩

/-- C1 (amended): in every successfully validating iteration with a
non-empty `homeworks` list, the Scheduler hands `parse_status`'s return
value to the Notifier unconditionally — exactly one `send_message`
invocation carrying that value, which is the empty string when no
transition was detected. -/
theorem C1_theorem (env : TickEnv) (st : LoopState) (response : PyVal)
    (hw : PyVal) (rest : List PyVal) (m : String) (table' : StatusTable)
    (cd : PyVal)
    (hget : get_api_answer env st.timestamp = .ok response)
    (hval : check_response response = .ok true)
    (hhw : pySubscript response "homeworks" = .ok (.list (hw :: rest)))
    (hcd : pySubscript response "current_date" = .ok cd)
    (hps : parse_status hw st.table = .ok (m, table')) :
    tick env st = .ok ({ timestamp := cd, table := table' }, [m]) := by
  simp [tick, tickBody, hget, hval, hhw, hcd, hps, pyLen, pyIndex,
    bind, Except.bind, pure, Except.pure]

/-- C1 witness: the amended statement at the second tick of the
end-to-end example — `parse_status` returns the empty string and the
Notifier is invoked exactly once, with that empty string. -/
theorem C1_witness :
    tick envC1 { timestamp := .int 2000,
                 table := [(PyVal.str "hw1", "reviewing")] } =
      .ok ({ timestamp := .int 2000,
             table := [(PyVal.str "hw1", "reviewing")] }, [""]) :=
  C1_theorem envC1
    { timestamp := .int 2000, table := [(PyVal.str "hw1", "reviewing")] }
    respHw1 (hwItem "hw1" "reviewing") [] ""
    [(PyVal.str "hw1", "reviewing")] (.int 2000) rfl rfl rfl rfl rfl

/-- An endpoint returning a smaller `current_date` (0) than the current
watermark (1000). -/
def envCd0 : TickEnv := envReturning (respWith [] (.int 0))

/-- C4 counterexample: a fully successful iteration (no exception, the
Scheduler performs its watermark update) in which the watermark moves
from 1000 down to 0, because `current_date` is taken from the response
verbatim with no monotonicity check: "never decreases" is false. -/
theorem C4_counterexample :
    tickBody envCd0 { timestamp := .int 1000, table := [] } =
      .ok ({ timestamp := .int 0, table := [] }, []) ∧
    tick envCd0 { timestamp := .int 1000, table := [] } =
      .ok ({ timestamp := .int 0, table := [] }, []) ∧
    ((0 : Int) < 1000) :=
  ⟨rfl, rfl, by decide⟩

/-- On a successful `try` block, the new timestamp is exactly the
response's `current_date` field. -/
theorem tickBody_ok_timestamp (env : TickEnv) (st st' : LoopState)
    (sends : List String) (h : tickBody env st = .ok (st', sends)) :
    ∃ response cd, get_api_answer env st.timestamp = .ok response ∧
      pySubscript response "current_date" = .ok cd ∧
      st'.timestamp = cd := by
  unfold tickBody at h
  simp only [bind, Except.bind] at h
  cases hget : get_api_answer env st.timestamp with
  | error e => rw [hget] at h; simp at h
  | ok response =>
      rw [hget] at h
      dsimp only at h
      refine ⟨response, ?_⟩
      cases hval : check_response response with
      | error e => rw [hval] at h; simp at h
      | ok b =>
          rw [hval] at h
          dsimp only at h
          cases hhw : pySubscript response "homeworks" with
          | error e => rw [hhw] at h; simp at h
          | ok hws =>
              rw [hhw] at h
              dsimp only at h
              cases hlen : pyLen hws with
              | error e => rw [hlen] at h; simp at h
              | ok n =>
                  rw [hlen] at h
                  dsimp only at h
                  by_cases hn : n > 0
                  · rw [if_pos hn] at h
                    cases hidx : pyIndex hws 0 with
                    | error e => rw [hidx] at h; simp at h
                    | ok hw =>
                        rw [hidx] at h
                        dsimp only at h
                        cases hps : parse_status hw st.table with
                        | error e => rw [hps] at h; simp at h
                        | ok p =>
                            rw [hps] at h
                            dsimp only at h
                            obtain ⟨m, table'⟩ := p
                            cases hcd : pySubscript response "current_date" with
                            | error e => rw [hcd] at h; simp at h
                            | ok cd =>
                                rw [hcd] at h
                                simp [pure, Except.pure] at h
                                obtain ⟨h1, -⟩ := h
                                subst h1
                                exact ⟨cd, rfl, rfl, rfl⟩
                  · rw [if_neg hn] at h
                    cases hcd : pySubscript response "current_date" with
                    | error e => rw [hcd] at h; simp at h
                    | ok cd =>
                        rw [hcd] at h
                        simp [pure, Except.pure] at h
                        obtain ⟨h1, -⟩ := h
                        subst h1
                        exact ⟨cd, rfl, rfl, rfl⟩

/-- C4 (amended): the watermark is mutated only by the Scheduler and only
when the `try` block succeeds — on a failed iteration it is unchanged,
and on a successful one it is set to the response's `current_date` field
verbatim, with no guarantee against decreasing. -/
theorem C4_theorem (env : TickEnv) (st st' : LoopState)
    (sends : List String) (h : tick env st = .ok (st', sends)) :
    st'.timestamp = st.timestamp ∨
    ∃ response cd, get_api_answer env st.timestamp = .ok response ∧
      pySubscript response "current_date" = .ok cd ∧
      st'.timestamp = cd := by
  cases htb : tickBody env st with
  | ok r =>
      right
      obtain ⟨stb, sendsb⟩ := r
      have : tick env st = .ok (stb, sendsb) := by simp [tick, htb]
      rw [this] at h
      simp at h
      obtain ⟨h1, -⟩ := h
      subst h1
      exact tickBody_ok_timestamp env st stb sendsb htb
  | error e =>
      left
      have := C3_theorem env st e htb
      rw [this] at h
      simp at h
      obtain ⟨h1, -⟩ := h
      subst h1
      rfl

/-- C4 witness: the amended statement at the decreasing-watermark tick —
the new watermark is exactly the response's `current_date`, here 0. -/
theorem C4_witness :
    ({ timestamp := .int 0, table := [] } : LoopState).timestamp =
      ({ timestamp := .int 1000, table := [] } : LoopState).timestamp ∨
    ∃ response cd,
      get_api_answer envCd0
        ({ timestamp := .int 1000, table := [] } : LoopState).timestamp =
          .ok response ∧
      pySubscript response "current_date" = .ok cd ∧
      ({ timestamp := .int 0, table := [] } : LoopState).timestamp = cd :=
  C4_theorem envCd0 { timestamp := .int 1000, table := [] }
    { timestamp := .int 0, table := [] } [] rfl

/-- Truthiness of one configuration variable spelled out: present and
non-empty. -/
theorem truthy_iff (o : Option String) :
    truthy o = true ↔ (o ≠ Option.none ∧ o ≠ some "") := by
  cases o with
  | none => simp [truthy]
  | some s => simp [truthy]

/-- C8: the loop starts iff all three configuration values are present
and non-empty.  When one is absent or empty, `main` raises the fatal
`ValueError` before any polling, and the result does not depend on the
endpoint at all — the loop body is never entered; when all are present
and non-empty, the loop runs. -/
theorem C8_theorem (cfg : Config) (t0 : Int) (envs : List TickEnv) :
    (check_tokens cfg = false →
      main_run cfg t0 envs =
        .error (.mk .valueError "Missing environment variables"
          Option.none) ∧
      main_run cfg t0 envs = main_run cfg t0 []) ∧
    (check_tokens cfg = true →
      main_run cfg t0 envs =
        runTicks envs { timestamp := .int t0, table := [] }) ∧
    (check_tokens cfg = true ↔
      (cfg.TELEGRAM_CHAT_ID ≠ Option.none ∧ cfg.TELEGRAM_CHAT_ID ≠ some "" ∧
       cfg.TELEGRAM_TOKEN ≠ Option.none ∧ cfg.TELEGRAM_TOKEN ≠ some "" ∧
       cfg.PRACTICUM_TOKEN ≠ Option.none ∧
       cfg.PRACTICUM_TOKEN ≠ some "")) := by
  refine ⟨?_, ?_, ?_⟩
  · intro hc
    constructor <;> simp [main_run, hc]
  · intro hc
    simp [main_run, hc]
  · simp only [check_tokens, List.all, Bool.and_eq_true, truthy_iff]
    tauto

/-- A configuration with all three variables present and non-empty. -/
def cfgGood : Config :=
  { PRACTICUM_TOKEN := some "practicum-token",
    TELEGRAM_TOKEN := some "telegram-token",
    TELEGRAM_CHAT_ID := some "chat-id" }

/-- A configuration with the endpoint credential unset. -/
def cfgBad : Config :=
  { PRACTICUM_TOKEN := Option.none,
    TELEGRAM_TOKEN := some "telegram-token",
    TELEGRAM_CHAT_ID := some "chat-id" }

/-- C8 witness: with the endpoint credential unset the process fails
fatally and ignores the endpoint entirely; with all three values set the
loop runs. -/
theorem C8_witness :
    main_run cfgBad 1000 [envHttp500] =
      .error (.mk .valueError "Missing environment variables"
        Option.none) ∧
    main_run cfgBad 1000 [envHttp500] = main_run cfgBad 1000 [] ∧
    main_run cfgGood 1000 [] =
      runTicks [] { timestamp := .int 1000, table := [] } := by
  have hb := (C8_theorem cfgBad 1000 [envHttp500]).1 rfl
  have hg := (C8_theorem cfgGood 1000 []).2.1 rfl
  exact ⟨hb.1, hb.2, hg⟩

end HomeworkBot
